import Mathlib

/-!
Verification of the SimpleEQ response-curve component
(Source/PluginEditor.cpp) against its design specification.

The development embeds, as Lean definitions:

* the Change Detector and Coefficient Publisher of
  `ResponseCurveComponent` (`parameterValueChanged`, `timerCallback`),
  as a state machine over an editor state;
* the listener subscribe/unsubscribe protocol of the constructor and
  destructor of `ResponseCurveComponent`, as a registry of listeners
  per parameter;
* the Response Analyzer of `ResponseCurveComponent::paint`
  (frequency sampling, cascade magnitude product, decibel conversion,
  linear mapping to a vertical pixel coordinate, polyline assembly),
  with floating-point numbers modelled as real numbers;
* the rotary-slider angle constants of `RotarySliderWithLabels::paint`.

Functions of the JUCE framework used by the source
(`mapToLog10`, `jmap`, `Decibels::gainToDecibels`,
`degreesToRadians`, `Atomic::compareAndSetBool`) are embedded from
their documented definitions.
-/

/-! ## Slopes and parameter snapshot -/

/-- The slope enumeration of the cut bands: 12, 24, 36 or 48 dB per
octave. -/
inductive Slope where
  | Slope_12
  | Slope_24
  | Slope_36
  | Slope_48
deriving DecidableEq

/-- Number of cascade stages a slope activates: `s / 12` stages for a
slope of `s` dB per octave. -/
def Slope.stageCount : Slope → ℕ
  | .Slope_12 => 1
  | .Slope_24 => 2
  | .Slope_36 => 3
  | .Slope_48 => 4

/-- Modelled from the spec: the Parameter Snapshot read by
`getChainSettings` (declared in PluginProcessor.h, which is not part of
the analysed sources) — peak centre frequency, peak gain in dB, peak
quality Q, the two cut corner frequencies and the two cut slopes. -/
structure ChainSettings where
  lowCutFreq : ℝ
  highCutFreq : ℝ
  peakFreq : ℝ
  peakGainInDecibels : ℝ
  peakQuality : ℝ
  lowCutSlope : Slope
  highCutSlope : Slope

/-! ## Coefficient factory (spec-modelled) -/

/-- Modelled from the spec: a peaking-filter coefficient set is an
immutable value fully determined by the snapshot fields it is designed
from and the sample rate; we represent it by those determining inputs. -/
structure PeakCoefficients where
  freq : ℝ
  gainDb : ℝ
  quality : ℝ
  sampleRate : ℝ

/-- Modelled from the spec: one coefficient set of a Butterworth cut
cascade.  All stages share the corner frequency and sample rate but each
stage realises a different pole pair of the high-order response, which
the `stageIndex` field records. -/
structure CutCoefficients where
  cutFreq : ℝ
  sampleRate : ℝ
  stageIndex : ℕ

/-- Modelled from the spec: `makePeakFilter` (PluginProcessor.h, not
under the analysed sources) — a pure function of the snapshot and the
sample rate producing the peaking-filter coefficients. -/
def makePeakFilter (s : ChainSettings) (sampleRate : ℝ) : PeakCoefficients :=
  ⟨s.peakFreq, s.peakGainInDecibels, s.peakQuality, sampleRate⟩

/-- Modelled from the spec: `makeLowCutFilter` — a highpass Butterworth
cascade of `s.lowCutSlope.stageCount` coefficient sets, ordered by stage
index. -/
def makeLowCutFilter (s : ChainSettings) (sampleRate : ℝ) : List CutCoefficients :=
  (List.range s.lowCutSlope.stageCount).map (fun i => ⟨s.lowCutFreq, sampleRate, i⟩)

/-- Modelled from the spec: `makeHighCutFilter` — the symmetric lowpass
construction from the high-cut corner frequency and slope. -/
def makeHighCutFilter (s : ChainSettings) (sampleRate : ℝ) : List CutCoefficients :=
  (List.range s.highCutSlope.stageCount).map (fun i => ⟨s.highCutFreq, sampleRate, i⟩)

/-! ## The cut-filter group and the mono chain (publisher view) -/

/-- One stage slot of a cut group: its installed coefficients and its
bypass flag. -/
structure CutStage where
  coeffs : CutCoefficients
  bypassed : Bool

/-- A cut-filter group: exactly four stage slots, as in the
`CutFilter = ProcessorChain<Filter, Filter, Filter, Filter>` alias of
the source. -/
structure CutFilterState where
  s0 : CutStage
  s1 : CutStage
  s2 : CutStage
  s3 : CutStage

/-- The mono chain as published to: LowCut group, Peak stage, HighCut
group, as in `MonoChain = ProcessorChain<CutFilter, Filter, CutFilter>`. -/
structure MonoChainState where
  lowCut : CutFilterState
  peak : PeakCoefficients
  highCut : CutFilterState

/-- The bypass flag of slot `i` of a cut group. -/
def CutFilterState.bypassedAt (b : CutFilterState) : Fin 4 → Bool
  | 0 => b.s0.bypassed
  | 1 => b.s1.bypassed
  | 2 => b.s2.bypassed
  | 3 => b.s3.bypassed

/-- Bypass every slot of a cut group (the first step of
`updateCutFilter`). -/
def bypassAll (b : CutFilterState) : CutFilterState :=
  ⟨⟨b.s0.coeffs, true⟩, ⟨b.s1.coeffs, true⟩, ⟨b.s2.coeffs, true⟩, ⟨b.s3.coeffs, true⟩⟩

/-- Install coefficient set `c` into slot `i` and clear that slot's
bypass flag; slots past the group are left untouched. -/
def installStage (b : CutFilterState) (i : ℕ) (c : CutCoefficients) : CutFilterState :=
  match i with
  | 0 => { b with s0 := ⟨c, false⟩ }
  | 1 => { b with s1 := ⟨c, false⟩ }
  | 2 => { b with s2 := ⟨c, false⟩ }
  | 3 => { b with s3 := ⟨c, false⟩ }
  | _ => b

/-- Install a coefficient sequence into consecutive slots starting at
slot `i`, clearing their bypass flags. -/
def installStages : CutFilterState → ℕ → List CutCoefficients → CutFilterState
  | b, _, [] => b
  | b, i, c :: rest => installStages (installStage b i c) (i + 1) rest

/-- Modelled from the spec: `updateCutFilter` (PluginProcessor.h, not
under the analysed sources) — bypass all four slots, then install
coefficient set `i` of the produced sequence into slot `i` un-bypassed;
trailing slots stay bypassed. -/
def updateCutFilter (b : CutFilterState) (coeffs : List CutCoefficients) : CutFilterState :=
  installStages (bypassAll b) 0 coeffs

/-! ## Change Detector and Coefficient Publisher
(`ResponseCurveComponent::parameterValueChanged` and
`ResponseCurveComponent::timerCallback`) -/

/-- The state the editor-side machinery acts on: the atomic
`parameterChanged` flag, the current snapshot and sample rate, the mono
chain, and two instrumentation counters — how many times the
recompute-and-publish block of `timerCallback` has run and how many
times `repaint` has been requested. -/
structure EditorState where
  parameterChanged : Bool
  settings : ChainSettings
  sampleRate : ℝ
  monoChain : MonoChainState
  publisherRuns : ℕ
  repaints : ℕ

/-- `ResponseCurveComponent::parameterValueChanged`: every notification
sets the atomic flag to true unconditionally, ignoring which parameter
changed and its new value. -/
def parameterValueChanged (parameterIndex : ℕ) (newValue : ℝ) (s : EditorState) : EditorState :=
  { s with parameterChanged := true }

/-- A burst of parameter-change notifications delivered between two
ticks, each carrying a parameter index and a new value. -/
def notifySeq (l : List (ℕ × ℝ)) (s : EditorState) : EditorState :=
  l.foldl (fun st p => parameterValueChanged p.1 p.2 st) s

/-- The body of the recompute block of `timerCallback`: peak
coefficients from `makePeakFilter`, then both cut groups through
`updateCutFilter` with the slope-derived sequences. -/
def updateMonoChain (settings : ChainSettings) (sampleRate : ℝ) (c : MonoChainState) :
    MonoChainState :=
  { lowCut := updateCutFilter c.lowCut (makeLowCutFilter settings sampleRate)
    peak := makePeakFilter settings sampleRate
    highCut := updateCutFilter c.highCut (makeHighCutFilter settings sampleRate) }

/-- `ResponseCurveComponent::timerCallback`:
`parameterChanged.compareAndSetBool(false, true)` swaps the flag from
true to false and reports whether it observed true; on true the chain is
recomputed from the current snapshot and a repaint is requested, on
false nothing happens. -/
def timerCallback (s : EditorState) : EditorState :=
  if s.parameterChanged then
    { s with
      parameterChanged := false
      monoChain := updateMonoChain s.settings s.sampleRate s.monoChain
      publisherRuns := s.publisherRuns + 1
      repaints := s.repaints + 1 }
  else s

/-! ## Listener registry
(`ResponseCurveComponent::ResponseCurveComponent` and
`ResponseCurveComponent::~ResponseCurveComponent`) -/

/-- A registry of change listeners: for each parameter (by index), the
list of listener identities subscribed to it. -/
def Registry : Type := ℕ → List ℕ

/-- `param->addListener(this)`: subscribe listener `l` to parameter `p`. -/
def addListener (l : ℕ) (p : ℕ) (reg : Registry) : Registry :=
  fun q => if q = p then l :: reg q else reg q

/-- `param->removeListener(this)`: remove one subscription of listener
`l` from parameter `p`. -/
def removeListener (l : ℕ) (p : ℕ) (reg : Registry) : Registry :=
  fun q => if q = p then (reg q).erase l else reg q

/-- The constructor body: subscribe `self` to every parameter of
`audioProcessor.getParameters()` in order. -/
def responseCurveConstructor (params : List ℕ) (self : ℕ) (reg : Registry) : Registry :=
  params.foldl (fun r p => addListener self p r) reg

/-- The destructor body: unsubscribe `self` from every parameter of the
same list `audioProcessor.getParameters()` in order. -/
def responseCurveDestructor (params : List ℕ) (self : ℕ) (reg : Registry) : Registry :=
  params.foldl (fun r p => removeListener self p r) reg

/-! ## Response Analyzer (`ResponseCurveComponent::paint`) -/

/-- A filter stage as the analyzer reads it: its bypass flag together
with the magnitude response of its currently installed coefficient
object (`coefficients->getMagnitudeForFrequency(freq, sampleRate)`,
left abstract as a function of frequency and sample rate). -/
structure FilterStage where
  bypassed : Bool
  magnitudeAt : ℝ → ℝ → ℝ

/-- The four stage slots of a cut group, as read through
`get<0>() .. get<3>()`. -/
structure CutFilter where
  f0 : FilterStage
  f1 : FilterStage
  f2 : FilterStage
  f3 : FilterStage

/-- The mono chain as the analyzer reads it: the LowCut group, the Peak
stage and the HighCut group. -/
structure MonoChain where
  lowCut : CutFilter
  peak : FilterStage
  highCut : CutFilter

/-- The stage slots the paint loop consults, in the order of the source:
the Peak stage, then LowCut slots 0–3, then HighCut slots 0–3. -/
def consultedStages (c : MonoChain) : List FilterStage :=
  [c.peak,
   c.lowCut.f0, c.lowCut.f1, c.lowCut.f2, c.lowCut.f3,
   c.highCut.f0, c.highCut.f1, c.highCut.f2, c.highCut.f3]

/-- One `if (!…isBypassed…) mag *= …getMagnitudeForFrequency(freq, sampleRate)`
step of the paint loop. -/
noncomputable def magStep (freq sampleRate mag : ℝ) (f : FilterStage) : ℝ :=
  if !f.bypassed then mag * f.magnitudeAt freq sampleRate else mag

/-- The magnitude accumulation of one iteration of the paint loop:
`double mag = 1.f` followed by the nine conditional multiplications, in
source order. -/
noncomputable def chainMagnitude (c : MonoChain) (freq sampleRate : ℝ) : ℝ :=
  let mag : ℝ := 1
  let mag := magStep freq sampleRate mag c.peak
  let mag := magStep freq sampleRate mag c.lowCut.f0
  let mag := magStep freq sampleRate mag c.lowCut.f1
  let mag := magStep freq sampleRate mag c.lowCut.f2
  let mag := magStep freq sampleRate mag c.lowCut.f3
  let mag := magStep freq sampleRate mag c.highCut.f0
  let mag := magStep freq sampleRate mag c.highCut.f1
  let mag := magStep freq sampleRate mag c.highCut.f2
  let mag := magStep freq sampleRate mag c.highCut.f3
  mag

/-- The magnitudes of the active (non-bypassed) stages among the
consulted slots, at the given frequency and sample rate. -/
noncomputable def activeStageMagnitudes (c : MonoChain) (freq sampleRate : ℝ) : List ℝ :=
  ((consultedStages c).filter (fun f => !f.bypassed)).map (fun f => f.magnitudeAt freq sampleRate)

/-- JUCE `mapToLog10 (value0To1, logRangeMin, logRangeMax)`:
`pow (10, value0To1 * (log10 max − log10 min) + log10 min)`. -/
noncomputable def mapToLog10 (value0To1 logRangeMin logRangeMax : ℝ) : ℝ :=
  (10 : ℝ) ^ (value0To1 * (Real.logb 10 logRangeMax - Real.logb 10 logRangeMin) +
    Real.logb 10 logRangeMin)

/-- The frequency the paint loop evaluates at pixel `i` of width `w`:
`mapToLog10(double(i) / double(w), 20.0, 20000.0)`. -/
noncomputable def analysisFreq (w i : ℕ) : ℝ :=
  mapToLog10 ((i : ℝ) / (w : ℝ)) 20 20000

/-- JUCE `Decibels::gainToDecibels` with the default −100 dB floor:
`gain > 0 ? max (−100, 20 * log10 gain) : −100`. -/
noncomputable def gainToDecibels (gain : ℝ) : ℝ :=
  if 0 < gain then max (-100) (20 * Real.logb 10 gain) else -100

/-- The magnitude vector the paint loop fills: `mags.resize(w)` and
`mags[i] = gainToDecibels(mag)` for the magnitude accumulated at pixel
`i`. -/
noncomputable def computeMags (c : MonoChain) (sampleRate : ℝ) (w : ℕ) : List ℝ :=
  (List.range w).map (fun i => gainToDecibels (chainMagnitude c (analysisFreq w i) sampleRate))

/-- JUCE five-argument `jmap`: the unclamped linear map taking the
source range onto the target range,
`targetMin + (targetMax − targetMin) * (v − sourceMin) / (sourceMax − sourceMin)`. -/
noncomputable def jmap (sourceValue sourceRangeMin sourceRangeMax targetRangeMin targetRangeMax : ℝ) : ℝ :=
  targetRangeMin + (targetRangeMax - targetRangeMin) * (sourceValue - sourceRangeMin) /
    (sourceRangeMax - sourceRangeMin)

/-- The mapping lambda of `paint`: `jmap(input, -24.0, 24.0, outpuMin,
outputMax)` where `outpuMin` is the bottom and `outputMax` the top
coordinate of the display area. -/
noncomputable def responseMap (outputMin outputMax input : ℝ) : ℝ :=
  jmap input (-24) 24 outputMin outputMax

/-- The polyline built from the magnitude vector: `startNewSubPath` at
the leftmost x with the mapped front element (`mags.front()`, an
out-of-bounds access when the vector is empty, modelled by the `none`
branch), then `lineTo(left + i, map(mags[i]))` for `i = 1 .. size − 1`;
consecutive points of the returned list are joined by straight
segments. -/
noncomputable def responseCurve (left bottom top : ℝ) (mags : List ℝ) :
    Option (List (ℝ × ℝ)) :=
  match mags.head? with
  | none => none
  | some m0 =>
      some ((left, responseMap bottom top m0) ::
        (List.range (mags.length - 1)).map
          (fun j => (left + ((j + 1 : ℕ) : ℝ), responseMap bottom top (mags.getD (j + 1) 0))))

/-! ## Rotary slider angles (`RotarySliderWithLabels::paint`) -/

/-- JUCE `degreesToRadians`: `degrees * (pi / 180)`. -/
noncomputable def degreesToRadians (degrees : ℝ) : ℝ :=
  degrees * (Real.pi / 180)

/-- The start angle `RotarySliderWithLabels::paint` always passes to
`drawRotarySlider`: `degreesToRadians(180.f + 45.f)`. -/
noncomputable def startAngle : ℝ :=
  degreesToRadians (180 + 45)

/-- The end angle `RotarySliderWithLabels::paint` always passes to
`drawRotarySlider`: `degreesToRadians(180.f - 45.f) + twoPi`. -/
noncomputable def endAngle : ℝ :=
  degreesToRadians (180 - 45) + 2 * Real.pi

/-! ## Concrete fixtures used by witnesses -/

/-- A concrete coefficient set used by witnesses. -/
def sampleCoeffs : CutCoefficients := ⟨20, 44100, 0⟩

/-- A concrete parameter snapshot used by witnesses. -/
def sampleSettings : ChainSettings := ⟨20, 20000, 750, 0, 1, Slope.Slope_12, Slope.Slope_24⟩

/-- A concrete cut group used by witnesses. -/
def sampleCutState : CutFilterState :=
  ⟨⟨sampleCoeffs, true⟩, ⟨sampleCoeffs, true⟩, ⟨sampleCoeffs, true⟩, ⟨sampleCoeffs, true⟩⟩

/-- A concrete published chain used by witnesses. -/
def sampleChainState : MonoChainState := ⟨sampleCutState, ⟨750, 0, 1, 44100⟩, sampleCutState⟩

/-- A concrete editor state with the change flag still clear. -/
def sampleEditorState : EditorState := ⟨false, sampleSettings, 44100, sampleChainState, 0, 0⟩

/-- A concrete analyzer stage that is bypassed. -/
def quietStage : FilterStage := ⟨true, fun _ _ => 1⟩

/-- A concrete cut group whose four slots are all bypassed. -/
def quietCutFilter : CutFilter := ⟨quietStage, quietStage, quietStage, quietStage⟩

/-- A concrete analyzer chain: only the peak stage is active, with a
constant magnitude response of 1000 (that is, +60 dB). -/
def loudChain : MonoChain := ⟨quietCutFilter, ⟨false, fun _ _ => 1000⟩, quietCutFilter⟩

/-! ## Change Detector lemmas -/

/-- A nonempty burst of notifications leaves every field unchanged
except the flag, which it sets. -/
theorem notifySeq_eq (l : List (ℕ × ℝ)) (s : EditorState) :
    notifySeq l s = if l.isEmpty then s else { s with parameterChanged := true } := by
  induction l generalizing s with
  | nil => rfl
  | cons p l ih =>
      have h1 : notifySeq (p :: l) s = notifySeq l (parameterValueChanged p.1 p.2 s) := rfl
      rw [h1, ih]
      cases hl : l.isEmpty <;> simp [hl, parameterValueChanged]

/-- C1: N parameter-change notifications (N at least 1) delivered between
two consecutive timer ticks coalesce: the next tick observes the flag
true and performs exactly one recompute-and-publish run and exactly one
repaint request, never N of them; a tick whose compare-and-swap observes
false performs neither (it leaves the whole state unchanged). -/
theorem change_coalescing (s : EditorState) (l : List (ℕ × ℝ)) :
    (l ≠ [] →
      (timerCallback (notifySeq l s)).publisherRuns = s.publisherRuns + 1 ∧
      (timerCallback (notifySeq l s)).repaints = s.repaints + 1) ∧
    (s.parameterChanged = false → timerCallback s = s) := by
  constructor
  · intro hl
    rw [notifySeq_eq]
    simp [List.isEmpty_iff, hl, timerCallback]
  · intro hf
    simp [timerCallback, hf]

/-- Witness for `change_coalescing`: a burst of two notifications on the
sample state yields exactly one publisher run, and a tick on the
quiescent sample state changes nothing. -/
theorem change_coalescing_witness :
    (timerCallback (notifySeq [(0, 1), (3, 2)] sampleEditorState)).publisherRuns =
      sampleEditorState.publisherRuns + 1 ∧
    timerCallback sampleEditorState = sampleEditorState :=
  ⟨((change_coalescing sampleEditorState [(0, 1), (3, 2)]).1 (by simp)).1,
   (change_coalescing sampleEditorState [(0, 1), (3, 2)]).2 rfl⟩

/-! ## Coefficient Publisher lemmas -/

/-- Installing a `k`-element coefficient sequence (k at most 4) after
bypassing all slots leaves slot `i` bypassed exactly when `k ≤ i`. -/
theorem updateCutFilter_bypassedAt (b : CutFilterState) (g : ℕ → CutCoefficients)
    (k : ℕ) (hk : k ≤ 4) (i : Fin 4) :
    (updateCutFilter b ((List.range k).map g)).bypassedAt i = decide (k ≤ i.val) := by
  interval_cases k <;> fin_cases i <;>
    simp [updateCutFilter, installStages, installStage, bypassAll, List.range_succ,
      CutFilterState.bypassedAt]

/-- C5: every triggered tick (compare-and-swap observed true) recomputes
and republishes all three bands together — the peak coefficients, the
low-cut sequence with its slope-derived bypass pattern and the high-cut
sequence with its slope-derived bypass pattern — and the published chain
does not depend on which individual parameter fired the notification. -/
theorem publisher_recomputes_all_bands (s : EditorState) (h : s.parameterChanged = true) :
    (timerCallback s).monoChain.peak = makePeakFilter s.settings s.sampleRate ∧
    (timerCallback s).monoChain.lowCut =
      updateCutFilter s.monoChain.lowCut (makeLowCutFilter s.settings s.sampleRate) ∧
    (timerCallback s).monoChain.highCut =
      updateCutFilter s.monoChain.highCut (makeHighCutFilter s.settings s.sampleRate) ∧
    (∀ i : Fin 4, (timerCallback s).monoChain.lowCut.bypassedAt i =
      decide (s.settings.lowCutSlope.stageCount ≤ i.val)) ∧
    (∀ i : Fin 4, (timerCallback s).monoChain.highCut.bypassedAt i =
      decide (s.settings.highCutSlope.stageCount ≤ i.val)) ∧
    (∀ parameterIndex : ℕ, ∀ newValue : ℝ,
      (timerCallback (parameterValueChanged parameterIndex newValue s)).monoChain =
        (timerCallback s).monoChain) := by
  have hcount : ∀ sl : Slope, sl.stageCount ≤ 4 := by
    intro sl; cases sl <;> simp [Slope.stageCount]
  refine ⟨?_, ?_, ?_, ?_, ?_, ?_⟩
  · simp [timerCallback, h, updateMonoChain]
  · simp [timerCallback, h, updateMonoChain]
  · simp [timerCallback, h, updateMonoChain]
  · intro i
    simp only [timerCallback, h, if_true, updateMonoChain, makeLowCutFilter]
    exact updateCutFilter_bypassedAt _ _ _ (hcount _) i
  · intro i
    simp only [timerCallback, h, if_true, updateMonoChain, makeHighCutFilter]
    exact updateCutFilter_bypassedAt _ _ _ (hcount _) i
  · intro idx v
    simp [timerCallback, h, parameterValueChanged]

/-- Witness for `publisher_recomputes_all_bands`: the sample state with
its flag set publishes the recomputed peak coefficients. -/
theorem publisher_recomputes_all_bands_witness :
    (timerCallback { sampleEditorState with parameterChanged := true }).monoChain.peak =
      makePeakFilter sampleSettings 44100 :=
  (publisher_recomputes_all_bands { sampleEditorState with parameterChanged := true } rfl).1

/-! ## Listener registry lemmas -/

/-- The constructor adds, at every parameter `q`, one subscription of
`self` per occurrence of `q` in the traversed parameter list. -/
theorem constructor_count (params : List ℕ) (self : ℕ) (reg : Registry) (q : ℕ) :
    ((responseCurveConstructor params self reg) q).count self =
      (reg q).count self + params.count q := by
  induction params generalizing reg with
  | nil => simp [responseCurveConstructor, notifySeq]
  | cons p ps ih =>
      have h1 : responseCurveConstructor (p :: ps) self reg =
          responseCurveConstructor ps self (addListener self p reg) := rfl
      rw [h1, ih, List.count_cons]
      by_cases hq : q = p
      · subst hq; simp [addListener, List.count_cons]; omega
      · simp [addListener, hq, Ne.symm hq]

/-- The destructor removes, at every parameter `q`, one subscription of
`self` per occurrence of `q` in the traversed parameter list. -/
theorem destructor_count (params : List ℕ) (self : ℕ) (reg : Registry) (q : ℕ) :
    ((responseCurveDestructor params self reg) q).count self =
      (reg q).count self - params.count q := by
  induction params generalizing reg with
  | nil => simp [responseCurveDestructor]
  | cons p ps ih =>
      have h1 : responseCurveDestructor (p :: ps) self reg =
          responseCurveDestructor ps self (removeListener self p reg) := rfl
      rw [h1, ih, List.count_cons]
      by_cases hq : q = p
      · subst hq; simp [removeListener, List.count_erase_self]; omega
      · simp [removeListener, hq, Ne.symm hq]

/-- C7: the destructor unsubscribes the listener from exactly the set of
parameters the constructor subscribed it to — both traverse the same
`audioProcessor.getParameters()` list — so construction followed by
destruction restores every subscription count; in particular a component
not subscribed anywhere before construction is subscribed nowhere after
destruction, and no parameter-change callback can reach it. -/
theorem listener_subscription_balance (params : List ℕ) (self : ℕ) (reg : Registry) :
    (∀ q, ((responseCurveDestructor params self
        (responseCurveConstructor params self reg)) q).count self = (reg q).count self) ∧
    ((∀ q, self ∉ reg q) →
      ∀ q, self ∉ (responseCurveDestructor params self
        (responseCurveConstructor params self reg)) q) := by
  have h1 : ∀ q, ((responseCurveDestructor params self
      (responseCurveConstructor params self reg)) q).count self = (reg q).count self := by
    intro q
    rw [destructor_count, constructor_count]
    omega
  refine ⟨h1, fun h q => ?_⟩
  have h0 : (reg q).count self = 0 := List.count_eq_zero.mpr (h q)
  exact List.count_eq_zero.mp ((h1 q).trans h0)

/-- Witness for `listener_subscription_balance`: constructing and then
destructing over three parameters leaves the fresh listener subscribed
to none of them. -/
theorem listener_subscription_balance_witness :
    5 ∉ (responseCurveDestructor [0, 1, 2] 5
      (responseCurveConstructor [0, 1, 2] 5 (fun _ => []))) 1 :=
  (listener_subscription_balance [0, 1, 2] 5 (fun _ => [])).2 (by simp) 1

/-! ## Cascade product lemmas -/

/-- The magnitude accumulation is a left fold of `magStep` over the
consulted stage slots. -/
theorem chainMagnitude_eq_foldl (c : MonoChain) (freq sampleRate : ℝ) :
    chainMagnitude c freq sampleRate = (consultedStages c).foldl (magStep freq sampleRate) 1 :=
  rfl

/-- Folding `magStep` over any stage list multiplies the accumulator by
the product of the magnitudes of its non-bypassed stages. -/
theorem foldl_magStep (freq sampleRate : ℝ) (L : List FilterStage) :
    ∀ acc : ℝ, L.foldl (magStep freq sampleRate) acc =
      acc * ((L.filter (fun f => !f.bypassed)).map
        (fun f => f.magnitudeAt freq sampleRate)).prod := by
  induction L with
  | nil => intro acc; simp
  | cons f L ih =>
      intro acc
      rw [List.foldl_cons, ih]
      cases hb : f.bypassed <;>
        simp [magStep, hb, List.filter_cons, mul_assoc]

/-- C2: for every frequency and sample rate, the aggregate magnitude the
paint loop computes equals the product over all active (non-bypassed)
stages of the three positions — the Peak stage, the four LowCut slots
and the four HighCut slots — of their magnitude responses, the product
starting from 1 and bypassed stages contributing no factor. -/
theorem cascade_product_law (c : MonoChain) (freq sampleRate : ℝ) :
    chainMagnitude c freq sampleRate = (activeStageMagnitudes c freq sampleRate).prod := by
  rw [chainMagnitude_eq_foldl, foldl_magStep]
  rw [activeStageMagnitudes, one_mul]

/-! ## Frame lemma for the analyzer -/

/-- Agreement of two stages as the analyzer can observe them at one
frequency and sample rate: equal bypass flags and equal magnitude values
there. -/
def agreesAt (freq sampleRate : ℝ) (f g : FilterStage) : Prop :=
  f.bypassed = g.bypassed ∧ f.magnitudeAt freq sampleRate = g.magnitudeAt freq sampleRate

/-- Folding `magStep` only looks at the bypass flags and the magnitude
values at the queried frequency. -/
theorem foldl_magStep_congr (freq sampleRate : ℝ) {L L' : List FilterStage}
    (h : List.Forall₂ (agreesAt freq sampleRate) L L') :
    ∀ acc : ℝ, L.foldl (magStep freq sampleRate) acc = L'.foldl (magStep freq sampleRate) acc := by
  induction h with
  | nil => intro acc; rfl
  | cons hfg _ ih =>
      intro acc
      rw [List.foldl_cons, List.foldl_cons, ih]
      congr 1
      rw [magStep, magStep, hfg.1, hfg.2]

/-- C8: the chain the analyzer reads has the fixed three-position
structure — one Peak stage between two cut groups of exactly four slots
each — and every analyzer pass consults exactly those 1 + 4 + 4 stage
slots and nothing else: two chains whose nine consulted slots agree (in
bypass flag and in magnitude value at the queried frequency) yield the
same aggregate magnitude. -/
theorem chain_structure_fixed (c c' : MonoChain) (freq sampleRate : ℝ) :
    consultedStages c =
      [c.peak,
       c.lowCut.f0, c.lowCut.f1, c.lowCut.f2, c.lowCut.f3,
       c.highCut.f0, c.highCut.f1, c.highCut.f2, c.highCut.f3] ∧
    (consultedStages c).length = 1 + 4 + 4 ∧
    (List.Forall₂ (agreesAt freq sampleRate) (consultedStages c) (consultedStages c') →
      chainMagnitude c freq sampleRate = chainMagnitude c' freq sampleRate) := by
  refine ⟨rfl, rfl, fun h => ?_⟩
  rw [chainMagnitude_eq_foldl, chainMagnitude_eq_foldl]
  exact foldl_magStep_congr freq sampleRate h 1

/-- Witness for `chain_structure_fixed`: the sample chain agrees with
itself slot by slot, so the analyzer output coincides. -/
theorem chain_structure_fixed_witness :
    chainMagnitude loudChain 1000 44100 = chainMagnitude loudChain 1000 44100 :=
  (chain_structure_fixed loudChain loudChain 1000 44100).2.2
    (by
      rw [List.forall₂_same]
      intro x _
      exact ⟨rfl, rfl⟩)

/-! ## Frequency axis lemmas -/

/-- Base-10 logarithm of 1000. -/
theorem logb_ten_cube : Real.logb 10 1000 = 3 := by
  have h : (1000 : ℝ) = 10 ^ (3 : ℕ) := by norm_num
  rw [h, Real.logb_pow, Real.logb_self_eq_one (by norm_num)]
  norm_num

/-- The width of the analysis band on the log-10 axis is three decades. -/
theorem logb_band_width : Real.logb 10 20000 - Real.logb 10 20 = 3 := by
  rw [← Real.logb_div (by norm_num) (by norm_num)]
  norm_num [logb_ten_cube]

/-- C4: for a width `w` and every pixel index `i < w`, the paint loop
evaluates the chain at the logarithmically interpolated frequency
`10 ^ (log10 20 + (i / w) * (log10 20000 − log10 20))`; the first pixel
is at exactly 20 Hz and every sampled frequency lies in the band
[20 Hz, 20000 Hz). -/
theorem analysis_frequency_law (w i : ℕ) (hi : i < w) :
    analysisFreq w i =
      (10 : ℝ) ^ (Real.logb 10 20 + ((i : ℝ) / (w : ℝ)) *
        (Real.logb 10 20000 - Real.logb 10 20)) ∧
    analysisFreq w 0 = 20 ∧
    20 ≤ analysisFreq w i ∧ analysisFreq w i < 20000 := by
  have hw : 0 < w := by omega
  have hwR : (0 : ℝ) < (w : ℝ) := by exact_mod_cast hw
  have ht0 : 0 ≤ (i : ℝ) / (w : ℝ) := div_nonneg (by positivity) hwR.le
  have ht1 : (i : ℝ) / (w : ℝ) < 1 := by
    rw [div_lt_one hwR]
    exact_mod_cast hi
  have h20 : (10 : ℝ) ^ (Real.logb 10 20) = 20 :=
    Real.rpow_logb (by norm_num) (by norm_num) (by norm_num)
  refine ⟨?_, ?_, ?_, ?_⟩
  · rw [analysisFreq, mapToLog10, add_comm]
  · rw [analysisFreq, mapToLog10]
    norm_num
  · rw [analysisFreq, mapToLog10, logb_band_width]
    calc (20 : ℝ) = (10 : ℝ) ^ (Real.logb 10 20) := h20.symm
      _ ≤ (10 : ℝ) ^ ((i : ℝ) / (w : ℝ) * 3 + Real.logb 10 20) := by
          rw [Real.rpow_le_rpow_left_iff (by norm_num)]
          nlinarith
  · rw [analysisFreq, mapToLog10, logb_band_width]
    have hlt : (10 : ℝ) ^ ((i : ℝ) / (w : ℝ) * 3 + Real.logb 10 20) <
        (10 : ℝ) ^ ((3 : ℝ) + Real.logb 10 20) := by
      rw [Real.rpow_lt_rpow_left_iff (by norm_num)]
      nlinarith
    have heq : (10 : ℝ) ^ ((3 : ℝ) + Real.logb 10 20) = 20000 := by
      rw [Real.rpow_add (by norm_num), h20]
      rw [show (3 : ℝ) = ((3 : ℕ) : ℝ) by norm_num, Real.rpow_natCast]
      norm_num
    linarith

/-- Witness for `analysis_frequency_law`: width 2, pixel 1 — the
sampled frequency sits inside the analysis band. -/
theorem analysis_frequency_law_witness :
    1 < 2 ∧ (20 ≤ analysisFreq 2 1 ∧ analysisFreq 2 1 < 20000) :=
  ⟨by norm_num, (analysis_frequency_law 2 1 (by norm_num)).2.2⟩

/-! ## Decibel mapping lemmas -/

/-- A gain of 1000 converts to +60 dB. -/
theorem gainToDecibels_thousand : gainToDecibels 1000 = 60 := by
  rw [gainToDecibels, if_pos (by norm_num), logb_ten_cube]
  norm_num

/-- The sample chain with only its peak stage active at constant
magnitude 1000 accumulates the aggregate magnitude 1000 at every
frequency. -/
theorem loudChain_magnitude (freq sampleRate : ℝ) :
    chainMagnitude loudChain freq sampleRate = 1000 := by
  simp [chainMagnitude, magStep, loudChain, quietCutFilter, quietStage]

/-- At width 1, the magnitude vector of the loud sample chain is the
single value +60 dB. -/
theorem computeMags_loudChain : computeMags loudChain 44100 1 = [60] := by
  rw [computeMags]
  have h1 : List.range 1 = [0] := rfl
  rw [h1, List.map_singleton, loudChain_magnitude, gainToDecibels_thousand]

/-- C3 counterexample: with the display area spanning y = 0 (top) to
y = 100 (bottom) and a chain whose aggregate response is +60 dB — a
decibel value outside [−24, +24] — the single emitted point has
y = −75, outside the display area: the per-pixel decibel value is not
clamped to [−24, +24] before the linear mapping. -/
theorem response_curve_escapes_display :
    computeMags loudChain 44100 1 = [60] ∧
    responseCurve 0 100 0 (computeMags loudChain 44100 1) = some [(0, -75)] ∧
    ¬ (0 ≤ (-75 : ℝ) ∧ (-75 : ℝ) ≤ 100) := by
  refine ⟨computeMags_loudChain, ?_, by norm_num⟩
  rw [computeMags_loudChain, responseCurve]
  norm_num [responseMap, jmap]

/-- C3 (amended): the per-pixel decibel value is mapped by the
unclamped linear map sending −24 dB to the bottom and +24 dB to the top
of the display area; the emitted y coordinate lies between top and
bottom exactly when the decibel value lies in [−24, +24], and escapes
the display area for decibel values outside that range. -/
theorem response_map_linear_unclamped (bottom top input : ℝ) (h : top < bottom) :
    responseMap bottom top input = bottom + (top - bottom) * (input + 24) / 48 ∧
    responseMap bottom top (-24) = bottom ∧
    responseMap bottom top 24 = top ∧
    ((top ≤ responseMap bottom top input ∧ responseMap bottom top input ≤ bottom) ↔
      (-24 ≤ input ∧ input ≤ 24)) := by
  have hval : responseMap bottom top input = bottom + (top - bottom) * (input + 24) / 48 := by
    rw [responseMap, jmap]
    ring
  refine ⟨hval, by rw [responseMap, jmap]; ring, by rw [responseMap, jmap]; ring, ?_⟩
  rw [hval]
  constructor
  · rintro ⟨h1, h2⟩
    constructor <;> nlinarith
  · rintro ⟨h1, h2⟩
    constructor <;> nlinarith

/-- Witness for `response_map_linear_unclamped`: with bottom 100 and top
0, an input of −24 dB maps to the bottom of the display area. -/
theorem response_map_linear_unclamped_witness :
    (0 : ℝ) < 100 ∧ responseMap 100 0 (-24) = 100 :=
  ⟨by norm_num, (response_map_linear_unclamped 100 0 (-24) (by norm_num)).2.1⟩

/-! ## Polyline lemmas -/

/-- Shape of the path built from a nonempty magnitude vector: one point
per entry, the first at the leftmost x, point `i` at the leftmost x plus
`i` with the mapped magnitude as its y value. -/
theorem responseCurve_spec (left bottom top : ℝ) (m0 : ℝ) (rest : List ℝ) :
    ∃ pts : List (ℝ × ℝ),
      responseCurve left bottom top (m0 :: rest) = some pts ∧
      pts.length = (m0 :: rest).length ∧
      ∀ i : ℕ, i < (m0 :: rest).length →
        pts.getD i (0, 0) =
          (left + (i : ℝ), responseMap bottom top ((m0 :: rest).getD i 0)) := by
  have hcurve : responseCurve left bottom top (m0 :: rest) =
      some ((left, responseMap bottom top m0) ::
        (List.range rest.length).map
          (fun j => (left + ((j + 1 : ℕ) : ℝ),
            responseMap bottom top ((m0 :: rest).getD (j + 1) 0)))) := by
    rw [responseCurve]
    simp
  refine ⟨_, hcurve, by simp, ?_⟩
  intro i hi
  cases i with
  | zero => simp
  | succ i =>
      have hi' : i < rest.length := by simpa using hi
      rw [List.getD_cons_succ, List.getD_eq_getElem?_getD, List.getElem?_map,
        List.getElem?_range hi']
      simp

/-- C6: for every width `w` at least 1, the analyzer emits a polyline of
exactly `w` points: the first point sits at the leftmost x of the
display area with the mapped first magnitude as y value, and point `i`
sits at the leftmost x plus `i` with the mapped magnitude of pixel `i`,
joined to its predecessor by a straight segment (consecutive entries of
the point list). -/
theorem response_polyline (left bottom top sampleRate : ℝ) (c : MonoChain) (w : ℕ)
    (hw : 1 ≤ w) :
    ∃ pts : List (ℝ × ℝ),
      responseCurve left bottom top (computeMags c sampleRate w) = some pts ∧
      pts.length = w ∧
      ∀ i : ℕ, i < w →
        pts.getD i (0, 0) =
          (left + (i : ℝ),
           responseMap bottom top ((computeMags c sampleRate w).getD i 0)) := by
  have hlen : (computeMags c sampleRate w).length = w := by
    simp [computeMags]
  cases hx : computeMags c sampleRate w with
  | nil =>
      rw [hx] at hlen
      simp at hlen
      omega
  | cons m0 rest =>
      obtain ⟨pts, h1, h2, h3⟩ := responseCurve_spec left bottom top m0 rest
      rw [hx] at hlen
      refine ⟨pts, h1, by rw [h2, hlen], ?_⟩
      intro i hi
      rw [← hlen] at hi
      exact h3 i hi

/-- Witness for `response_polyline`: at width 1 the loud sample chain
yields a one-point polyline. -/
theorem response_polyline_witness :
    1 ≤ 1 ∧ ∃ pts : List (ℝ × ℝ),
      responseCurve 0 100 0 (computeMags loudChain 44100 1) = some pts ∧
      pts.length = 1 ∧
      ∀ i : ℕ, i < 1 →
        pts.getD i (0, 0) =
          (0 + (i : ℝ), responseMap 100 0 ((computeMags loudChain 44100 1).getD i 0)) :=
  ⟨le_refl 1, response_polyline 0 100 0 44100 loudChain 1 (by norm_num)⟩

/-- C9: the paint pass implicitly requires a display width of at least
1 — at width 0 the read of the front element of the (then empty)
magnitude vector takes the error branch of the Option-returning
embedding, while at every width at least 1 the path is produced and
every index the loop reads (1 through w − 1, and the front) is within
the bounds of the magnitude vector. -/
theorem paint_width_precondition (left bottom top sampleRate : ℝ) (c : MonoChain) :
    responseCurve left bottom top (computeMags c sampleRate 0) = none ∧
    ∀ w : ℕ, 1 ≤ w →
      (responseCurve left bottom top (computeMags c sampleRate w)).isSome = true ∧
      ∀ i : ℕ, 1 ≤ i → i < w → i < (computeMags c sampleRate w).length := by
  constructor
  · rfl
  · intro w hw
    have hlen : (computeMags c sampleRate w).length = w := by
      simp [computeMags]
    constructor
    · cases hx : computeMags c sampleRate w with
      | nil =>
          rw [hx] at hlen
          simp at hlen
          omega
      | cons m0 rest =>
          obtain ⟨pts, h1, _, _⟩ := responseCurve_spec left bottom top m0 rest
          rw [h1]
          rfl
    · intro i hi1 hiw
      rw [hlen]
      exact hiw

/-- Witness for `paint_width_precondition`: at width 2 the loud sample
chain produces a path. -/
theorem paint_width_precondition_witness :
    (responseCurve 0 100 0 (computeMags loudChain 44100 2)).isSome = true :=
  ((paint_width_precondition 0 100 0 44100 loudChain).2 2 (by norm_num)).1

/-! ## Rotary slider angles -/

/-- C10: the assertion `rotaryStartAngle < rotaryEndAngle` inside
`drawRotarySlider` holds for every call made from
`RotarySliderWithLabels::paint`, which always passes
`degreesToRadians(180 + 45)` as start and
`degreesToRadians(180 − 45) + 2π` as end:
`degreesToRadians 225 < degreesToRadians 135 + 2π` unconditionally. -/
theorem rotary_angle_assertion : startAngle < endAngle := by
  unfold startAngle endAngle degreesToRadians
  nlinarith [Real.pi_pos]
